import Mathlib

/-
Verification of the job-execution / outcome-classification core of the
ink-proof conformance harness (`proof.py`, `diff.py`).

Shallow embedding conventions:
* Python `None`-able integers (process exit codes) become `Option Int`.
* A job's mutable outcome fields (`return_code`, `timed_out`, `infra_error`)
  are gathered into `JobState`; the construction-time configuration of a job
  (command, stream paths, timeout, expected paths) into `Job`.
* Filesystem queries made at settle time (`os.path.isfile`, `os.path.getsize`)
  are abstracted as an `FS` record of pure functions.
* The behaviour of the external world during one job's execution (which
  precondition files exist, whether the spawn succeeds, when and how the
  subprocess exits) is abstracted as an `Env` record; `Job.do_work` and
  `Job.run` are then pure functions of the job, its dependencies' states and
  the environment, returning the final `JobState` together with a trace of
  events (streams opened/closed, semaphore acquired/released, process
  spawned/terminated) and a flag recording whether an exception escaped.
* The cooperative scheduler (`run_jobs` + the per-job `Job.run` coroutine) is
  additionally modelled as a small-step transition system `Step` over
  program counters, to state the temporal claims about ordering and the
  concurrency gate.
-/

namespace InkProof

/-- The closed status taxonomy of `proof.py`: one constructor per `Status`
object, named by the object's `name` string.  The source's `TimeoutStatus`
object carries the name string "RUNTIME_TIMEOUT" (the spec calls this status
simply TIMEOUT). -/
inductive Status where
  | SUCCESS
  | FAIL
  | COMPILER_NO_OUTPUT
  | RUNTIME_CRASHED
  | COMPILER_CRASHED
  | RUNTIME_TIMEOUT
  | INFRA_ERROR
deriving DecidableEq, Repr

/-- The exceptions stored in a job's `infra_error` field:
`FileNotFoundError(path)` raised for a missing precondition path in
`Job.do_work`, and the `PermissionError` / `FileNotFoundError` caught from
`asyncio.create_subprocess_exec`. -/
inductive InfraError where
  | fileNotFound (path : String)
  | permissionDenied
  | execNotFound
deriving DecidableEq, Repr

/-- The mutable outcome fields of a `Job` object, with the defaults set by
`Job.__init__`: `return_code = None`, `timed_out = False`,
`infra_error = None`. -/
structure JobState where
  return_code : Option Int := none
  timed_out : Bool := false
  infra_error : Option InfraError := none
deriving DecidableEq, Repr

/-- A job's outcome fields exactly as `Job.__init__` leaves them. -/
def JobState.initial : JobState := {}

/-- Filesystem state consulted at settle time (`os.path.isfile`,
`os.path.getsize`). -/
structure FS where
  isfile : String → Bool
  getsize : String → Nat

/-- Python truthiness of an optional integer: `if x:` is true exactly for a
present, non-zero value (`None` and `0` are falsy).  Used by
`CompilerResult.settle`'s `elif self.compile_job.return_code:`. -/
def truthy (o : Option Int) : Bool :=
  match o with
  | some n => n != 0
  | none => false

/-- The data of a `PlayerResult` consulted by its `settle` method: the
player job's outcome and stderr capture path, the diff job's outcome, and the
optional compile job the player job depended on (stored by `__init__`,
defaulting to `None`). -/
structure PlayerResult where
  player_job : JobState
  player_stderr_path : String
  diff_job : JobState
  compile_job : Option JobState := none

/-- `PlayerResult.settle` from `proof.py` (lines 107-122): the status ladder
for a run-only chain.  Returns the assigned status together with the
result's `infra_error` field (initially `None`, overwritten only on the
infra rung).  Note the source never consults `self.compile_job` here. -/
def PlayerResult.settle (fs : FS) (r : PlayerResult) : Status × Option InfraError :=
  if r.player_job.timed_out then (Status.RUNTIME_TIMEOUT, none)
  else if r.player_job.infra_error.isSome then (Status.INFRA_ERROR, r.player_job.infra_error)
  else if r.player_job.return_code ≠ some 0 then (Status.RUNTIME_CRASHED, none)
  else if r.diff_job.return_code = some 1 then
    -- inklecate has 0 exit code on exception and emits BOM
    if fs.getsize r.player_stderr_path > 5 then (Status.RUNTIME_CRASHED, none)
    else (Status.FAIL, none)
  else (Status.SUCCESS, none)

/-- The data of a `CompilerResult` consulted by its `settle` method:
the three chained jobs' outcomes, the compile job's declared output path
(`self.compile_job.out_path`, the `-o` argument set by `compile_job`),
and the player job's stderr capture path. -/
structure CompilerResult where
  compile_job : JobState
  compile_out_path : String
  player_job : JobState
  player_stderr_path : String
  diff_job : JobState

/-- `CompilerResult.settle` from `proof.py` (lines 167-191): the status
ladder for a full compile chain.  The compile-job rung for a crash is the
truthiness test `elif self.compile_job.return_code:`, and the output-file
rung reads the filesystem at settle time. -/
def CompilerResult.settle (fs : FS) (r : CompilerResult) : Status × Option InfraError :=
  if r.compile_job.timed_out then (Status.RUNTIME_TIMEOUT, none)
  else if r.compile_job.infra_error.isSome then (Status.INFRA_ERROR, r.compile_job.infra_error)
  else if truthy r.compile_job.return_code then (Status.COMPILER_CRASHED, none)
  else if ¬ fs.isfile r.compile_out_path then (Status.COMPILER_NO_OUTPUT, none)
  else if r.player_job.timed_out then (Status.RUNTIME_TIMEOUT, none)
  else if r.player_job.infra_error.isSome then (Status.INFRA_ERROR, r.player_job.infra_error)
  else if r.player_job.return_code ≠ some 0 then (Status.RUNTIME_CRASHED, none)
  else if r.diff_job.return_code = some 1 then
    -- inklecate has 0 exit code on exception and emits BOM
    if fs.getsize r.player_stderr_path > 5 then (Status.RUNTIME_CRASHED, none)
    else (Status.FAIL, none)
  else (Status.SUCCESS, none)

/-- The construction-time configuration of a `Job` (`Job.__init__`).
`expected_paths` is the field's final value after `__init__` appends
`stdin_path` to the caller-supplied list when a stdin redirection is
configured. -/
structure Job where
  command : List String
  stdin_path : Option String := none
  stdout_path : Option String := none
  stderr_path : Option String := none
  timeout : Nat := 20
  expected_paths : List String := []

/-- Observable events of one job's execution, used to state the claims about
spawning, stream cleanup and the concurrency gate. -/
inductive Event where
  | opened (path : String)
  | closed (path : String)
  | acquired
  | released
  | spawned
  | terminated
deriving DecidableEq, Repr

/-- How `asyncio.create_subprocess_exec` behaves for this job: success, or
one of the two caught exceptions. -/
inductive SpawnResult where
  | ok
  | permissionError
  | fileNotFound
deriving DecidableEq, Repr

/-- The external world during one job's execution: which files exist when
`do_work` checks its `expected_paths`, how the spawn goes, the time (relative
to spawn) at which the process would exit on its own together with its exit
code, and — should it be terminated — the time (relative to the termination
signal) at which it then exits and the exit code recorded for it. -/
structure Env where
  isfile : String → Bool
  spawn : SpawnResult := .ok
  exitTime : Nat := 0
  exitCode : Int := 0
  termExitTime : Nat := 0
  termExitCode : Int := 0

/-- Result of running `Job.do_work` / `Job.run`: the job's final outcome
fields, the trace of events, and whether an exception escaped (the only such
path is the second `asyncio.wait_for` timing out after `process.terminate()`,
whose `asyncio.TimeoutError` is not caught). -/
structure RunOut where
  state : JobState
  events : List Event
  raised : Bool
deriving DecidableEq, Repr

/-- The stream-open events of `do_work`, in source order:
`fin = open(stdin)`, `fout = open(stdout)`, `ferr = open(stderr)`
(each only when configured). -/
def openEvents (j : Job) : List Event :=
  [j.stdin_path, j.stdout_path, j.stderr_path].filterMap (fun o => o.map Event.opened)

/-- The stream-close events at the end of `do_work`, in source order:
`fout.close()`, `ferr.close()`, `fin.close()` (each only when opened). -/
def closeEvents (j : Job) : List Event :=
  [j.stdout_path, j.stderr_path, j.stdin_path].filterMap (fun o => o.map Event.closed)

/-- `Job.do_work` from `proof.py` (lines 419-446), as a function of the
environment.  In order: check every `expected_paths` entry with
`os.path.isfile`, stopping at the first missing one with a
`FileNotFoundError` infra error and no spawn; open the redirected streams;
spawn (the two caught exceptions set `infra_error`, and the close block still
runs); await the process bounded by `self.timeout`; on timeout set
`timed_out`, terminate the process and await again bounded by the same
`self.timeout` — if that second wait also times out, the `TimeoutError`
escapes and the close block is skipped. -/
def Job.do_work (j : Job) (env : Env) : RunOut :=
  match j.expected_paths.find? (fun p => ! env.isfile p) with
  | some p =>
      { state := { infra_error := some (InfraError.fileNotFound p) },
        events := [], raised := false }
  | none =>
      match env.spawn with
      | .permissionError =>
          { state := { infra_error := some InfraError.permissionDenied },
            events := openEvents j ++ closeEvents j, raised := false }
      | .fileNotFound =>
          { state := { infra_error := some InfraError.execNotFound },
            events := openEvents j ++ closeEvents j, raised := false }
      | .ok =>
          if env.exitTime ≤ j.timeout then
            { state := { return_code := some env.exitCode },
              events := openEvents j ++ [Event.spawned] ++ closeEvents j,
              raised := false }
          else if env.termExitTime ≤ j.timeout then
            { state := { return_code := some env.termExitCode, timed_out := true },
              events := openEvents j ++ [Event.spawned, Event.terminated] ++ closeEvents j,
              raised := false }
          else
            { state := { timed_out := true },
              events := openEvents j ++ [Event.spawned, Event.terminated],
              raised := true }

/-- `Job.run` from `proof.py` (lines 407-417), as a function of the terminal
states of the job's dependencies and the environment: after awaiting the
dependency tasks, `return` (leaving every outcome field at its default) as
soon as some dependency's `return_code != 0`; otherwise acquire the
semaphore, run `do_work`, and release the semaphore in a `finally` block
(so the release happens even on the escaping-exception path). -/
def Job.run (j : Job) (deps : List JobState) (env : Env) : RunOut :=
  if deps.any (fun d => d.return_code ≠ some 0) then
    { state := JobState.initial, events := [], raised := false }
  else
    let dw := j.do_work env
    { state := dw.state,
      events := Event.acquired :: dw.events ++ [Event.released],
      raised := dw.raised }

/-- The gate capacity fixed by `run_jobs`: `SEM = asyncio.Semaphore(30)`. -/
def semCapacity : Nat := 30

/-- Program counter of one job coroutine inside the scheduler, following the
suspension points of `Job.run` / `Job.do_work`:
`waitingDeps` — at `await asyncio.wait([dep.task ...])`;
`checkingDeps` — dependencies all terminal, at the return-code loop;
`skipped` — returned early because a dependency's `return_code != 0` (terminal);
`acquiring` — at `await SEM.acquire()`;
`holding` — slot acquired, inside `do_work` before any spawn;
`running` — subprocess spawned and not yet reaped (covers both bounded
waits, including the post-termination one);
`afterWork` — `do_work` finished (reaped, or never spawned due to an infra
error), slot not yet released;
`released` — slot released in the `finally` block (terminal);
`escaped` — the second `asyncio.wait_for` raised an uncaught
`TimeoutError`: the slot was released by the `finally` block and the task
finished with the exception (terminal), but the subprocess — signalled yet
free to ignore the signal — was never reaped. -/
inductive Pc where
  | waitingDeps
  | checkingDeps
  | skipped
  | acquiring
  | holding
  | running
  | afterWork
  | released
  | escaped
deriving DecidableEq, Repr

/-- A job coroutine's task is done (so `asyncio.wait` on it returns) exactly
in the terminal program counters — a task that finished with an uncaught
exception counts as done for its awaiters. -/
def Pc.terminal : Pc → Bool
  | .skipped => true
  | .released => true
  | .escaped => true
  | _ => false

/-- A coroutine is inside the spawn-to-reap-to-release window, i.e. holds a
semaphore slot. -/
def Pc.holdsSlot : Pc → Bool
  | .holding => true
  | .running => true
  | .afterWork => true
  | _ => false

/-- Global state of one batch run by `run_jobs`: each job's program counter
and the semaphore's current value. -/
structure SchedState (n : Nat) where
  pcs : Fin n → Pc
  sem : Nat

/-- The state after `run_jobs` has called `begin()` on every job: every
coroutine sits at its first await, and the semaphore is fresh at capacity
30. -/
def initState (n : Nat) : SchedState n := { pcs := fun _ => Pc.waitingDeps, sem := semCapacity }

/-- Interleaving small-step semantics of the batch: the event loop may
advance any one coroutine through its next suspension point or action,
subject to the guards present in `Job.run` / `Job.do_work` — the dependency
await completes only when every dependency task is done, and `SEM.acquire()`
completes only when the semaphore is positive.  Whether the return-code loop
skips, and whether `do_work` spawns or stops with an infra error, are
environment-dependent and therefore nondeterministic here.  A spawned
subprocess is either reaped by one of the two bounded waits (`reap`), or —
when it outlives both the timeout and the post-termination wait — abandoned
unreaped (`abandon`): the uncaught `TimeoutError` propagates out of
`do_work`, the `finally` block releases the slot, and the task ends. -/
inductive Step {n : Nat} (deps : Fin n → List (Fin n)) :
    SchedState n → SchedState n → Prop where
  | depsReady (s : SchedState n) (i : Fin n) :
      s.pcs i = Pc.waitingDeps →
      (∀ j ∈ deps i, (s.pcs j).terminal = true) →
      Step deps s { pcs := Function.update s.pcs i Pc.checkingDeps, sem := s.sem }
  | skip (s : SchedState n) (i : Fin n) :
      s.pcs i = Pc.checkingDeps →
      Step deps s { pcs := Function.update s.pcs i Pc.skipped, sem := s.sem }
  | proceed (s : SchedState n) (i : Fin n) :
      s.pcs i = Pc.checkingDeps →
      Step deps s { pcs := Function.update s.pcs i Pc.acquiring, sem := s.sem }
  | acquire (s : SchedState n) (i : Fin n) :
      s.pcs i = Pc.acquiring →
      0 < s.sem →
      Step deps s { pcs := Function.update s.pcs i Pc.holding, sem := s.sem - 1 }
  | infraStop (s : SchedState n) (i : Fin n) :
      s.pcs i = Pc.holding →
      Step deps s { pcs := Function.update s.pcs i Pc.afterWork, sem := s.sem }
  | spawn (s : SchedState n) (i : Fin n) :
      s.pcs i = Pc.holding →
      Step deps s { pcs := Function.update s.pcs i Pc.running, sem := s.sem }
  | reap (s : SchedState n) (i : Fin n) :
      s.pcs i = Pc.running →
      Step deps s { pcs := Function.update s.pcs i Pc.afterWork, sem := s.sem }
  | release (s : SchedState n) (i : Fin n) :
      s.pcs i = Pc.afterWork →
      Step deps s { pcs := Function.update s.pcs i Pc.released, sem := s.sem + 1 }
  | abandon (s : SchedState n) (i : Fin n) :
      s.pcs i = Pc.running →
      Step deps s { pcs := Function.update s.pcs i Pc.escaped, sem := s.sem + 1 }

/-- States reachable by the event loop from the batch's initial state. -/
def Reachable {n : Nat} (deps : Fin n → List (Fin n)) (s : SchedState n) : Prop :=
  Relation.ReflTransGen (Step deps) (initState n) s

/-- Number of jobs whose subprocess is spawned and not yet reaped. -/
def runningCount {n : Nat} (s : SchedState n) : Nat :=
  ∑ i : Fin n, if s.pcs i = Pc.running then 1 else 0

/-- Number of jobs currently holding a semaphore slot. -/
def slotCount {n : Nat} (s : SchedState n) : Nat :=
  ∑ i : Fin n, if (s.pcs i).holdsSlot then 1 else 0

/-- Number of jobs whose task ended with the uncaught second-wait
`TimeoutError`, leaving their subprocess spawned but never reaped. -/
def escapedCount {n : Nat} (s : SchedState n) : Nat :=
  ∑ i : Fin n, if s.pcs i = Pc.escaped then 1 else 0

/-- Number of spawned-and-not-yet-reaped subprocesses: those of jobs still
inside the spawn-to-reap window (`running`) plus those abandoned unreaped by
the escaping-TimeoutError path (`escaped`). -/
def unreapedCount {n : Nat} (s : SchedState n) : Nat :=
  ∑ i : Fin n, if s.pcs i = Pc.running ∨ s.pcs i = Pc.escaped then 1 else 0

/-- The inductive invariant of the scheduler: the semaphore value plus the
number of held slots is the capacity, and any coroutine past its dependency
await has all its dependencies terminal. -/
def Inv {n : Nat} (deps : Fin n → List (Fin n)) (s : SchedState n) : Prop :=
  s.sem + slotCount s = semCapacity ∧
  ∀ i, s.pcs i ≠ Pc.waitingDeps → ∀ j ∈ deps i, (s.pcs j).terminal = true

/-- A batch of 31 mutually independent jobs. -/
def deps31 : Fin 31 → List (Fin 31) := fun _ => []

/-- Intermediate states of a run of `deps31` in which job 0 spawned, timed
out twice and was abandoned unreaped (releasing its slot), after which jobs
1..k have each acquired a slot and spawned: job 0 `escaped`, jobs 1..k
`running`, the rest still waiting, and `30 - k` slots free. -/
def cexState (k : Nat) : SchedState 31 :=
  { pcs := fun j =>
      if j.val = 0 then Pc.escaped
      else if j.val ≤ k then Pc.running
      else Pc.waitingDeps,
    sem := 30 - k }

/-- Outcome of one invocation of the `diff.py` script: either an explicit
`exit(code)` (recording whether anything was written to stdout first), or an
uncaught exception propagating out of the script (for which the Python
interpreter's process exit status is 1 and nothing is written to stdout). -/
inductive DiffOut where
  | exited (code : Int) (wroteStdout : Bool)
  | raised
deriving DecidableEq, Repr

/-- The process exit code an invoker of `diff.py` observes: the argument of
`exit(...)`, or 1 when the script dies of an uncaught exception. -/
def DiffOut.exitCode : DiffOut → Int
  | .exited c _ => c
  | .raised => 1

/-- The `diff.py` script.  `argv` is Python's `sys.argv` (script name first);
`read p` is the line list obtained by reading file `p` with the `utf-8-sig`
codec and `splitlines()`, or `none` when `codecs.open`/`read` raises
(unreadable input).  If fewer or more than two file arguments are given the
script runs `exit(1)` before reading anything.  `difflib.unified_diff`
produces no lines exactly when the two line sequences are equal, so the
script falls through to the implicit `exit(0)` in that case, and otherwise
writes the diff lines to stdout and runs `exit(1)`. -/
def diffScript (argv : List String) (read : String → Option (List String)) : DiffOut :=
  match argv with
  | [_, a, b] =>
      match read a with
      | none => DiffOut.raised
      | some a_lines =>
          match read b with
          | none => DiffOut.raised
          | some b_lines =>
              if a_lines = b_lines then DiffOut.exited 0 false
              else DiffOut.exited 1 true
  | _ => DiffOut.exited 1 false

/-- Modelled from the spec: the full-compile-chain classification ladder
exactly as §4.3 words it, for comparison with `CompilerResult.settle`.  The
only wording differences from the source are on the exit-code rungs: the
spec's "exit_code non-zero" requires an exit code to exist and be non-zero
(`truthy`), both for the compile job (step 3) and for the run job (step 7),
whereas the source tests the run job with `return_code != 0`, which is also
satisfied by `None`. -/
def compilerLadderSpec (fs : FS) (r : CompilerResult) : Status × Option InfraError :=
  if r.compile_job.timed_out then (Status.RUNTIME_TIMEOUT, none)
  else if r.compile_job.infra_error.isSome then (Status.INFRA_ERROR, r.compile_job.infra_error)
  else if truthy r.compile_job.return_code then (Status.COMPILER_CRASHED, none)
  else if ¬ fs.isfile r.compile_out_path then (Status.COMPILER_NO_OUTPUT, none)
  else if r.player_job.timed_out then (Status.RUNTIME_TIMEOUT, none)
  else if r.player_job.infra_error.isSome then (Status.INFRA_ERROR, r.player_job.infra_error)
  else if truthy r.player_job.return_code then (Status.RUNTIME_CRASHED, none)
  else if r.diff_job.return_code = some 1 then
    if fs.getsize r.player_stderr_path > 5 then (Status.RUNTIME_CRASHED, none)
    else (Status.FAIL, none)
  else (Status.SUCCESS, none)

/-- The full compile chain as `main` wires it for one (compiler, example)
pair: `job_a = compile_job(...)` with no dependencies, `job_b =
compile_player_job(..., deps=[job_a])`, `job_c = diff_job(..., deps=[job_b])`,
folded into one `CompilerResult`.  Each job's terminal state is the outcome
of `Job.run` on its dependency's terminal state and its own environment. -/
def compileChainResult (jC jP jD : Job) (envC envP envD : Env)
    (outPath sePath : String) : CompilerResult :=
  let cs := (jC.run [] envC).state
  let ps := (jP.run [cs] envP).state
  let ds := (jD.run [ps] envD).state
  { compile_job := cs, compile_out_path := outPath,
    player_job := ps, player_stderr_path := sePath, diff_job := ds }

/-! Concrete filesystems, environments and jobs used to instantiate the
theorems below on closed inputs. -/

/-- A settle-time filesystem on which every path exists and every file is
empty. -/
def fsAll : FS := { isfile := fun _ => true, getsize := fun _ => 0 }

/-- A settle-time filesystem on which no path exists. -/
def fsNone : FS := { isfile := fun _ => false, getsize := fun _ => 0 }

/-- An environment in which every file exists and the spawned process exits
immediately with code 0. -/
def envZero : Env := { isfile := fun _ => true }

/-- An environment in which every file exists and the spawned process exits
immediately with code 1. -/
def envOne : Env := { isfile := fun _ => true, exitCode := 1 }

/-- An environment in which the process outlives the 20-second default
timeout, then — after the termination signal — exits with code 0 within the
second wait (a process that traps the termination signal and exits
cleanly). -/
def envTermZero : Env :=
  { isfile := fun _ => true, exitTime := 21, termExitTime := 1, termExitCode := 0 }

/-- An environment in which the process outlives the timeout and also
outlives the second, post-termination wait. -/
def envDoubleTimeout : Env :=
  { isfile := fun _ => true, exitTime := 21, termExitTime := 21 }

/-- An environment in which no file exists. -/
def envNoFiles : Env := { isfile := fun _ => false }

/-- A compile job as built by `compile_job` (no stdin, so no expected
paths). -/
def jobC : Job :=
  { command := ["compiler", "-o", "out.json", "story.ink"],
    stdout_path := some "c_stdout.txt", stderr_path := some "c_stderr.txt" }

/-- A run job as built by `compile_player_job`: redirected streams, with the
compiled artifact as an expected path and the stdin path appended by
`Job.__init__`. -/
def jobP : Job :=
  { command := ["player", "out.json"],
    stdin_path := some "input.txt",
    stdout_path := some "p_stdout.txt", stderr_path := some "p_stderr.txt",
    expected_paths := ["out.json", "input.txt"] }

/-- A diff job as built by `diff_job`: stdout captured, no stdin. -/
def jobD : Job :=
  { command := ["python", "diff.py", "transcript.txt", "p_stdout.txt"],
    stdout_path := some "diff.txt" }

/-- The terminal state of a dependency that timed out but recorded exit code
0 after the termination signal. -/
def depTimedZero : JobState := { return_code := some 0, timed_out := true }

/-- A full compile chain in which the compile job times out but exits 0
after the termination signal, the run job then runs and exits 0, and the
diff job exits 1. -/
def chainTimeoutDiffOne : CompilerResult :=
  compileChainResult jobC jobP jobD envTermZero envZero envOne "out.json" "p_stderr.txt"

/-- A full compile chain in which the compile job times out but exits 0
after the termination signal, the run job then runs and exits 0, and the
diff job exits 0. -/
def chainTimeoutDiffZero : CompilerResult :=
  compileChainResult jobC jobP jobD envTermZero envZero envZero "out.json" "p_stderr.txt"

/-- A full compile chain in which the compile job exits 0 without ever
creating its declared output file, so the run job stops on its missing
`out.json` precondition with an infra error and the diff job is skipped. -/
def chainMissingArtifact : CompilerResult :=
  compileChainResult jobC jobP jobD envZero envNoFiles envZero "out.json" "p_stderr.txt"

/-! Helper lemmas. -/

theorem mem_openEvents (j : Job) (p : String) :
    Event.opened p ∈ openEvents j ↔
      j.stdin_path = some p ∨ j.stdout_path = some p ∨ j.stderr_path = some p := by
  simp [openEvents, List.mem_filterMap, Option.map_eq_some', eq_comm]

theorem mem_closeEvents (j : Job) (p : String) :
    Event.closed p ∈ closeEvents j ↔
      j.stdin_path = some p ∨ j.stdout_path = some p ∨ j.stderr_path = some p := by
  simp [closeEvents, List.mem_filterMap, Option.map_eq_some', eq_comm]
  tauto

theorem closed_not_mem_openEvents (j : Job) (p : String) :
    Event.closed p ∉ openEvents j := by
  simp [openEvents, List.mem_filterMap, Option.map_eq_some']

theorem opened_not_mem_closeEvents (j : Job) (p : String) :
    Event.opened p ∉ closeEvents j := by
  simp [closeEvents, List.mem_filterMap, Option.map_eq_some']

theorem job_run_skip (j : Job) (deps : List JobState) (env : Env)
    (h : ∃ d ∈ deps, d.return_code ≠ some 0) :
    j.run deps env = { state := JobState.initial, events := [], raised := false } := by
  rcases h with ⟨d, hd, hne⟩
  have hany : deps.any (fun d => decide (d.return_code ≠ some 0)) = true :=
    List.any_eq_true.mpr ⟨d, hd, decide_eq_true hne⟩
  simp only [Job.run, hany, if_true]

theorem job_run_no_skip (j : Job) (deps : List JobState) (env : Env)
    (h : ∀ d ∈ deps, d.return_code = some 0) :
    j.run deps env =
      { state := (j.do_work env).state,
        events := Event.acquired :: (j.do_work env).events ++ [Event.released],
        raised := (j.do_work env).raised } := by
  have hany : deps.any (fun d => decide (d.return_code ≠ some 0)) = false := by
    rw [List.any_eq_false]
    intro d hd
    simp [h d hd]
  simp only [Job.run, hany, Bool.false_eq_true, if_false]

theorem do_work_shape (j : Job) (env : Env)
    (ht : (j.do_work env).state.timed_out = false)
    (hi : (j.do_work env).state.infra_error = none) :
    ∃ n, (j.do_work env).state.return_code = some n := by
  unfold Job.do_work at ht hi ⊢
  rcases hfind : List.find? (fun p => !env.isfile p) j.expected_paths with _ | p
  · simp only [hfind] at ht hi ⊢
    rcases hspawn : env.spawn
    · simp only [hspawn] at ht hi ⊢
      by_cases he : env.exitTime ≤ j.timeout
      · simp only [he, if_true]
        exact ⟨env.exitCode, rfl⟩
      · simp only [he, if_false] at ht ⊢
        by_cases he2 : env.termExitTime ≤ j.timeout
        · simp only [he2, if_true]
          exact ⟨env.termExitCode, rfl⟩
        · simp only [he2, if_false] at ht
          simp at ht
    · simp only [hspawn] at hi
      simp at hi
    · simp only [hspawn] at hi
      simp at hi
  · simp only [hfind] at hi
    simp at hi

theorem job_run_shape (j : Job) (deps : List JobState) (env : Env)
    (ht : (j.run deps env).state.timed_out = false)
    (hi : (j.run deps env).state.infra_error = none) :
    (∃ d ∈ deps, d.return_code ≠ some 0) ∨
      ∃ n, (j.run deps env).state.return_code = some n := by
  by_cases hskip : ∃ d ∈ deps, d.return_code ≠ some 0
  · exact Or.inl hskip
  · right
    push_neg at hskip
    rw [job_run_no_skip j deps env hskip] at ht hi ⊢
    exact do_work_shape j env ht hi

theorem settle_eq_ladder_of_shapes (fs : FS) (r : CompilerResult)
    (hc : r.compile_job.timed_out = false → r.compile_job.infra_error = none →
          ∃ n, r.compile_job.return_code = some n)
    (hp : r.compile_job.return_code = some 0 → r.player_job.timed_out = false →
          r.player_job.infra_error = none → ∃ n, r.player_job.return_code = some n) :
    CompilerResult.settle fs r = compilerLadderSpec fs r := by
  by_cases h1 : r.compile_job.timed_out = true
  · simp [CompilerResult.settle, compilerLadderSpec, h1]
  · by_cases h2 : r.compile_job.infra_error.isSome = true
    · simp [CompilerResult.settle, compilerLadderSpec, h1, h2]
    · by_cases h3 : truthy r.compile_job.return_code = true
      · simp [CompilerResult.settle, compilerLadderSpec, h1, h2, h3]
      · by_cases h4 : fs.isfile r.compile_out_path = true
        · by_cases h5 : r.player_job.timed_out = true
          · simp [CompilerResult.settle, compilerLadderSpec, h1, h2, h3, h4, h5]
          · by_cases h6 : r.player_job.infra_error.isSome = true
            · simp [CompilerResult.settle, compilerLadderSpec, h1, h2, h3, h4, h5, h6]
            · have h1' : r.compile_job.timed_out = false := by
                revert h1; cases r.compile_job.timed_out <;> simp
              have h2' : r.compile_job.infra_error = none := by
                revert h2; cases r.compile_job.infra_error <;> simp
              have h5' : r.player_job.timed_out = false := by
                revert h5; cases r.player_job.timed_out <;> simp
              have h6' : r.player_job.infra_error = none := by
                revert h6; cases r.player_job.infra_error <;> simp
              obtain ⟨n, hn⟩ := hc h1' h2'
              have hn0 : n = 0 := by
                by_contra hne
                apply h3
                rw [hn]
                simpa [truthy] using hne
              rw [hn0] at hn
              obtain ⟨m, hm⟩ := hp hn h5' h6'
              by_cases h7 : m = 0
              · rw [h7] at hm
                simp [CompilerResult.settle, compilerLadderSpec, h1, h2, h3, h4, h5, h6,
                  hm, truthy]
              · simp [CompilerResult.settle, compilerLadderSpec, h1, h2, h3, h4, h5, h6,
                  hm, truthy, h7]
        · simp [CompilerResult.settle, compilerLadderSpec, h1, h2, h3, h4]

/-! Claims. -/

/-- C1, counterexample.  A full run-only chain in which the compile job
crashes (exit code 1), so the run job is skipped (all fields default) and the
diff job is skipped in turn: `PlayerResult.settle` classifies this Result as
RUNTIME_CRASHED — a runtime failure — not COMPILER_CRASHED as the claim
states, because the settle ladder never consults the compile job. -/
theorem player_settle_compile_crash_reported_runtime_crashed :
    (jobC.run [] envOne).state.return_code = some 1 ∧
    PlayerResult.settle fsAll
        { player_job := (jobP.run [(jobC.run [] envOne).state] envZero).state,
          player_stderr_path := "p_stderr.txt",
          diff_job := (jobD.run [(jobP.run [(jobC.run [] envOne).state] envZero).state]
            envZero).state,
          compile_job := some (jobC.run [] envOne).state }
      = (Status.RUNTIME_CRASHED, none) ∧
    Status.RUNTIME_CRASHED ≠ Status.COMPILER_CRASHED := by
  refine ⟨rfl, rfl, by decide⟩

/-- C1, amended.  `PlayerResult.settle` never inspects the compile job: the
assigned status is the same for any value of the `compile_job` field
(including `None`), and a run-only Result whose run job and diff job were
both skipped (all outcome fields at their `Job.__init__` defaults) settles to
RUNTIME_CRASHED with no infra error, whatever the compile job did. -/
theorem player_settle_ignores_compile_job :
    (∀ (fs : FS) (pj dj : JobState) (sp : String) (cj cj' : Option JobState),
        PlayerResult.settle fs
            { player_job := pj, player_stderr_path := sp, diff_job := dj, compile_job := cj }
          = PlayerResult.settle fs
            { player_job := pj, player_stderr_path := sp, diff_job := dj, compile_job := cj' }) ∧
    (∀ (fs : FS) (sp : String) (cj : Option JobState),
        PlayerResult.settle fs
            { player_job := JobState.initial, player_stderr_path := sp,
              diff_job := JobState.initial, compile_job := cj }
          = (Status.RUNTIME_CRASHED, none)) := by
  exact ⟨fun _ _ _ _ _ _ => rfl, fun _ _ _ => rfl⟩

/-- C2.  For a full compile chain wired as `main` wires it (compile job with
no dependencies, run job depending on it, diff job depending on the run job),
`CompilerResult.settle` computes exactly the spec's first-match ladder
(`compilerLadderSpec`): compile timed out → TIMEOUT; compile infra error →
INFRA_ERROR; compile exit non-zero → COMPILER_CRASHED; compile output file
absent → COMPILER_NO_OUTPUT; run timed out → TIMEOUT; run infra error →
INFRA_ERROR; run exit non-zero → RUNTIME_CRASHED; diff exit 1 resolved by
the stderr-size heuristic to RUNTIME_CRASHED or FAIL; otherwise SUCCESS. -/
theorem compiler_settle_matches_spec_ladder (fs : FS) (jC jP jD : Job)
    (envC envP envD : Env) (outPath sePath : String) :
    CompilerResult.settle fs (compileChainResult jC jP jD envC envP envD outPath sePath)
      = compilerLadderSpec fs (compileChainResult jC jP jD envC envP envD outPath sePath) := by
  apply settle_eq_ladder_of_shapes
  · intro ht hi
    rcases job_run_shape jC [] envC ht hi with h | h
    · rcases h with ⟨d, hd, _⟩
      simp at hd
    · exact h
  · intro hret ht hi
    rcases job_run_shape jP [(jC.run [] envC).state] envP ht hi with h | h
    · rcases h with ⟨d, hd, hne⟩
      rw [List.mem_singleton] at hd
      subst hd
      exact absurd hret hne
    · exact h

/-- C4, counterexample.  A dependency that timed out but recorded exit code
0 after the termination signal does *not* cause its dependent to be skipped:
the dependent still spawns its process, because `Job.run` checks only
`dep.return_code != 0`. -/
theorem job_run_timed_out_dep_with_zero_exit_still_spawns :
    depTimedZero.timed_out = true ∧
    Event.spawned ∈ (jobP.run [depTimedZero] envZero).events := by
  exact ⟨rfl, by decide⟩

/-- C4, amended.  A job one of whose dependencies has `return_code ≠ 0`
(in particular any dependency with no recorded exit code at all: skipped,
infra-errored, or timed out without being reaped) spawns no process and
reaches its terminal state with every outcome field at its default:
`return_code` unset, `timed_out` false, `infra_error` unset.  (A timed-out
dependency that recorded exit code 0 after termination does not trigger this
skip — see the counterexample.) -/
theorem job_run_skips_when_dep_return_code_nonzero (j : Job) (deps : List JobState)
    (env : Env) (h : ∃ d ∈ deps, d.return_code ≠ some 0) :
    (j.run deps env).state.return_code = none ∧
    (j.run deps env).state.timed_out = false ∧
    (j.run deps env).state.infra_error = none ∧
    Event.spawned ∉ (j.run deps env).events := by
  rw [job_run_skip j deps env h]
  simp [JobState.initial]

/-- Witness for the amended C4 theorem: a dependency that exited with code
1 causes the dependent job to be skipped with all defaults. -/
theorem job_run_skips_when_dep_return_code_nonzero_witness :
    (jobP.run [(jobC.run [] envOne).state] envZero).state.return_code = none ∧
    (jobP.run [(jobC.run [] envOne).state] envZero).state.timed_out = false ∧
    (jobP.run [(jobC.run [] envOne).state] envZero).state.infra_error = none ∧
    Event.spawned ∉ (jobP.run [(jobC.run [] envOne).state] envZero).events :=
  job_run_skips_when_dep_return_code_nonzero jobP [(jobC.run [] envOne).state] envZero
    ⟨(jobC.run [] envOne).state, by simp, by decide⟩

/-- C5.  When the spawned process outlives the job's timeout (preconditions
present, spawn successful), `Job.do_work` marks `timed_out`, sends the
termination signal, and performs a second wait bounded by the *same*
`self.timeout`; if the process then exits within that bound its
post-termination exit code is recorded in `return_code`. -/
theorem do_work_timeout_terminates_and_reaps (j : Job) (env : Env)
    (hpre : ∀ p ∈ j.expected_paths, env.isfile p = true)
    (hspawn : env.spawn = SpawnResult.ok)
    (ht : j.timeout < env.exitTime) :
    (j.do_work env).state.timed_out = true ∧
    Event.terminated ∈ (j.do_work env).events ∧
    (env.termExitTime ≤ j.timeout →
      (j.do_work env).state.return_code = some env.termExitCode) := by
  have hfind : j.expected_paths.find? (fun p => !env.isfile p) = none := by
    rw [List.find?_eq_none]
    intro p hp
    simp [hpre p hp]
  have hgt : ¬ env.exitTime ≤ j.timeout := by omega
  unfold Job.do_work
  simp only [hfind, hspawn]
  rw [if_neg hgt]
  by_cases h2 : env.termExitTime ≤ j.timeout
  · rw [if_pos h2]
    refine ⟨rfl, by simp, fun _ => rfl⟩
  · rw [if_neg h2]
    refine ⟨rfl, by simp, fun hc => absurd hc h2⟩

/-- Witness for C5: a process that outlives the 20-second timeout and then
exits with code 0 one second after being terminated. -/
theorem do_work_timeout_terminates_and_reaps_witness :
    (jobC.do_work envTermZero).state.timed_out = true ∧
    Event.terminated ∈ (jobC.do_work envTermZero).events ∧
    (envTermZero.termExitTime ≤ jobC.timeout →
      (jobC.do_work envTermZero).state.return_code = some envTermZero.termExitCode) :=
  do_work_timeout_terminates_and_reaps jobC envTermZero
    (by intro p hp; simp [jobC] at hp) rfl (by decide)

/-- C6, counterexample.  A full compile chain whose compile job timed out
but recorded exit code 0 after termination: the run job then ran and exited
0, the diff job exited 1, the captured stderr is 0 bytes (≤ 5) — yet
`CompilerResult.settle` assigns TIMEOUT (the compile-job rung fires first),
not FAIL as the claim requires for every such Result. -/
theorem compiler_settle_timeout_masks_diff_fail :
    chainTimeoutDiffOne.player_job.return_code = some 0 ∧
    chainTimeoutDiffOne.player_job.timed_out = false ∧
    chainTimeoutDiffOne.player_job.infra_error = none ∧
    chainTimeoutDiffOne.diff_job.return_code = some 1 ∧
    fsAll.getsize "p_stderr.txt" ≤ 5 ∧
    CompilerResult.settle fsAll chainTimeoutDiffOne = (Status.RUNTIME_TIMEOUT, none) ∧
    Status.RUNTIME_TIMEOUT ≠ Status.FAIL := by
  refine ⟨rfl, rfl, rfl, rfl, by decide, rfl, by decide⟩

/-- C6, amended.  Given a run job that completed with exit code 0 (not timed
out, no infra error) and a diff job that exited 1, `settle` resolves the
stderr-size heuristic — FAIL when the captured stderr is at most 5 bytes,
RUNTIME_CRASHED when it exceeds 5 bytes — for a run-only Result
unconditionally, and for a full compile chain provided none of the earlier
compile-job rungs fires (compile not timed out, no compile infra error, no
truthy compile exit code, output file present at settle time). -/
theorem settle_diff_one_stderr_heuristic :
    (∀ (fs : FS) (r : PlayerResult),
        r.player_job.timed_out = false → r.player_job.infra_error = none →
        r.player_job.return_code = some 0 → r.diff_job.return_code = some 1 →
        PlayerResult.settle fs r =
          (if fs.getsize r.player_stderr_path > 5 then (Status.RUNTIME_CRASHED, none)
           else (Status.FAIL, none))) ∧
    (∀ (fs : FS) (r : CompilerResult),
        r.compile_job.timed_out = false → r.compile_job.infra_error = none →
        truthy r.compile_job.return_code = false → fs.isfile r.compile_out_path = true →
        r.player_job.timed_out = false → r.player_job.infra_error = none →
        r.player_job.return_code = some 0 → r.diff_job.return_code = some 1 →
        CompilerResult.settle fs r =
          (if fs.getsize r.player_stderr_path > 5 then (Status.RUNTIME_CRASHED, none)
           else (Status.FAIL, none))) := by
  constructor
  · intro fs r h1 h2 h3 h4
    simp [PlayerResult.settle, h1, h2, h3, h4]
  · intro fs r h1 h2 h3 h4 h5 h6 h7 h8
    simp [CompilerResult.settle, h1, h2, h3, h4, h5, h6, h7, h8]

/-- Witness for the amended C6 theorem: run job exited 0, diff exited 1,
stderr empty (0 bytes ≤ 5) — FAIL. -/
theorem settle_diff_one_stderr_heuristic_witness :
    PlayerResult.settle fsAll
        { player_job := { return_code := some 0 }, player_stderr_path := "p_stderr.txt",
          diff_job := { return_code := some 1 } }
      = (Status.FAIL, none) := by
  have h := settle_diff_one_stderr_heuristic.1 fsAll
    { player_job := { return_code := some 0 }, player_stderr_path := "p_stderr.txt",
      diff_job := { return_code := some 1 } } rfl rfl rfl rfl
  simpa [fsAll] using h

/-- C7, counterexample.  In a full compile chain whose compile job exited 0
without creating its declared output, the run job stops on the missing
`out.json` precondition with `infra_error = FileNotFoundError("out.json")` —
but the owning Result settles to COMPILER_NO_OUTPUT with its infra_error not
populated, because the compile-output rung fires before the run job's infra
rung. -/
theorem compiler_settle_missing_precondition_no_output :
    chainMissingArtifact.player_job.infra_error
        = some (InfraError.fileNotFound "out.json") ∧
    CompilerResult.settle fsNone chainMissingArtifact = (Status.COMPILER_NO_OUTPUT, none) ∧
    Status.COMPILER_NO_OUTPUT ≠ Status.INFRA_ERROR := by
  refine ⟨rfl, rfl, by decide⟩

/-- C7, amended.  A job not skipped by a dependency failure whose
`expected_paths` contain a missing path sets `infra_error` to a
file-not-found error naming the first missing path and spawns no process;
a run-only Result whose run job carries such an error settles to
INFRA_ERROR with that error populated.  (For a full compile chain the
compile-job rungs are checked first — see the counterexample.) -/
theorem job_missing_precondition_infra_error :
    (∀ (j : Job) (deps : List JobState) (env : Env) (p : String),
        (∀ d ∈ deps, d.return_code = some 0) →
        j.expected_paths.find? (fun q => !env.isfile q) = some p →
        (j.run deps env).state =
          { return_code := none, timed_out := false,
            infra_error := some (InfraError.fileNotFound p) } ∧
        Event.spawned ∉ (j.run deps env).events) ∧
    (∀ (fs : FS) (r : PlayerResult) (e : InfraError),
        r.player_job.timed_out = false →
        r.player_job.infra_error = some e →
        PlayerResult.settle fs r = (Status.INFRA_ERROR, some e)) := by
  constructor
  · intro j deps env p hdeps hfind
    rw [job_run_no_skip j deps env hdeps]
    unfold Job.do_work
    simp [hfind]
  · intro fs r e h1 h2
    simp [PlayerResult.settle, h1, h2]

/-- Witness for the amended C7 theorem: a run job whose `out.json`
precondition is missing, and the INFRA_ERROR settle of the Result owning
it. -/
theorem job_missing_precondition_infra_error_witness :
    (jobP.run [(jobC.run [] envZero).state] envNoFiles).state =
      { return_code := none, timed_out := false,
        infra_error := some (InfraError.fileNotFound "out.json") } ∧
    PlayerResult.settle fsNone
        { player_job := (jobP.run [(jobC.run [] envZero).state] envNoFiles).state,
          player_stderr_path := "p_stderr.txt", diff_job := JobState.initial }
      = (Status.INFRA_ERROR, some (InfraError.fileNotFound "out.json")) := by
  refine ⟨(job_missing_precondition_infra_error.1 jobP [(jobC.run [] envZero).state]
    envNoFiles "out.json" (by decide) (by decide)).1, ?_⟩
  exact job_missing_precondition_infra_error.2 fsNone _
    (InfraError.fileNotFound "out.json") (by decide) (by decide)

/-- C8, counterexample.  A job whose process survives both the timeout and
the second, post-termination wait: the uncaught `asyncio.TimeoutError`
skips the stream-close block, so the opened stdout stream is never closed —
although the gate slot is still released by the `finally` block. -/
theorem job_run_double_timeout_leaves_streams_open :
    (jobC.run [] envDoubleTimeout).state.timed_out = true ∧
    Event.opened "c_stdout.txt" ∈ (jobC.run [] envDoubleTimeout).events ∧
    Event.closed "c_stdout.txt" ∉ (jobC.run [] envDoubleTimeout).events ∧
    Event.released ∈ (jobC.run [] envDoubleTimeout).events := by
  decide

/-- C8, amended.  On every exit path `Job.run` releases the acquired gate
slot (the `finally` block), and on every exit path on which no exception
escapes — normal completion, timeout with a successful post-termination
reap, spawn failure, and the missing-precondition infra path — every stream
file the job opened is closed.  The one escaping path is the process
outliving both the timeout and the second post-termination wait; there the
opened streams are not closed (see the counterexample). -/
theorem job_run_cleanup (j : Job) (deps : List JobState) (env : Env) :
    (Event.acquired ∈ (j.run deps env).events → Event.released ∈ (j.run deps env).events) ∧
    ((j.run deps env).raised = false →
      ∀ p, Event.opened p ∈ (j.run deps env).events ↔
        Event.closed p ∈ (j.run deps env).events) ∧
    ((j.run deps env).raised = true →
      (j.run deps env).state.timed_out = true ∧ j.timeout < env.exitTime ∧
        j.timeout < env.termExitTime) := by
  by_cases hskip : ∃ d ∈ deps, d.return_code ≠ some 0
  · rw [job_run_skip j deps env hskip]
    exact ⟨by simp, by simp, by simp⟩
  · push_neg at hskip
    rw [job_run_no_skip j deps env hskip]
    unfold Job.do_work
    rcases hfind : List.find? (fun p => !env.isfile p) j.expected_paths with _ | p
    · simp only [hfind]
      rcases hspawn : env.spawn
      · simp only [hspawn]
        by_cases he : env.exitTime ≤ j.timeout
        · rw [if_pos he]
          refine ⟨by simp, fun _ q => ?_, by simp⟩
          simp [mem_openEvents, mem_closeEvents, closed_not_mem_openEvents,
            opened_not_mem_closeEvents]
        · rw [if_neg he]
          by_cases he2 : env.termExitTime ≤ j.timeout
          · rw [if_pos he2]
            refine ⟨by simp, fun _ q => ?_, by simp⟩
            simp [mem_openEvents, mem_closeEvents, closed_not_mem_openEvents,
              opened_not_mem_closeEvents]
          · rw [if_neg he2]
            refine ⟨by simp, by simp, fun _ => ⟨rfl, by omega, by omega⟩⟩
      · simp only [hspawn]
        refine ⟨by simp, fun _ q => ?_, by simp⟩
        simp [mem_openEvents, mem_closeEvents, closed_not_mem_openEvents,
          opened_not_mem_closeEvents]
      · simp only [hspawn]
        refine ⟨by simp, fun _ q => ?_, by simp⟩
        simp [mem_openEvents, mem_closeEvents, closed_not_mem_openEvents,
          opened_not_mem_closeEvents]
    · simp only [hfind]
      exact ⟨by simp, by simp, by simp⟩

/-- Witness for the amended C8 theorem: a normally-completing job releases
its slot and closes the stdout stream it opened. -/
theorem job_run_cleanup_witness :
    Event.released ∈ (jobC.run [] envZero).events ∧
    Event.closed "c_stdout.txt" ∈ (jobC.run [] envZero).events := by
  constructor
  · exact (job_run_cleanup jobC [] envZero).1 (by decide)
  · exact ((job_run_cleanup jobC [] envZero).2.1 (by decide) "c_stdout.txt").mp (by decide)

/-- C9, counterexample.  `diff.py`'s own failures do not exit with a
non-zero code other than 1: invoked with the wrong number of arguments it
runs `exit(1)` (writing nothing), and invoked on an unreadable input it dies
of an uncaught exception, for which the interpreter's process exit status is
also 1. -/
theorem diffScript_own_failure_exits_one :
    diffScript ["diff.py"] (fun _ => some []) = DiffOut.exited 1 false ∧
    diffScript ["diff.py", "a.txt", "b.txt"] (fun _ => none) = DiffOut.raised ∧
    DiffOut.raised.exitCode = 1 := by
  exact ⟨rfl, rfl, rfl⟩

/-- C9, amended.  With two readable file arguments `diff.py` exits 0 writing
nothing when the files' line contents are identical, and exits 1 after
writing the unified diff to stdout when they differ; but its own failures
are not distinguished by a different exit code: a wrong argument count exits
1 with no output, and an unreadable input raises an uncaught exception
(process exit status 1). -/
theorem diffScript_exit_codes :
    (∀ (s a b : String) (read : String → Option (List String)) (al bl : List String),
        read a = some al → read b = some bl →
        (al = bl → diffScript [s, a, b] read = DiffOut.exited 0 false) ∧
        (al ≠ bl → diffScript [s, a, b] read = DiffOut.exited 1 true)) ∧
    (∀ (argv : List String) (read : String → Option (List String)),
        argv.length ≠ 3 → diffScript argv read = DiffOut.exited 1 false) ∧
    (∀ (s a b : String) (read : String → Option (List String)),
        read a = none → diffScript [s, a, b] read = DiffOut.raised) := by
  refine ⟨?_, ?_, ?_⟩
  · intro s a b read al bl ha hb
    constructor
    · intro he
      simp [diffScript, ha, hb, he]
    · intro hne
      simp [diffScript, ha, hb, hne]
  · intro argv read hlen
    rcases argv with _ | ⟨a1, _ | ⟨a2, _ | ⟨a3, _ | ⟨a4, t⟩⟩⟩⟩
    · rfl
    · rfl
    · rfl
    · simp at hlen
    · rfl
  · intro s a b read ha
    simp [diffScript, ha]

/-- Witness for the amended C9 theorem: identical two-line reads exit 0 with
no output; differing reads exit 1 with diff output. -/
theorem diffScript_exit_codes_witness :
    diffScript ["diff.py", "a.txt", "b.txt"] (fun _ => some ["x"])
      = DiffOut.exited 0 false ∧
    diffScript ["diff.py", "a.txt", "b.txt"]
        (fun p => if p = "a.txt" then some ["x"] else some ["y"])
      = DiffOut.exited 1 true := by
  constructor
  · exact (diffScript_exit_codes.1 "diff.py" "a.txt" "b.txt" _ ["x"] ["x"] rfl rfl).1 rfl
  · exact (diffScript_exit_codes.1 "diff.py" "a.txt" "b.txt" _ ["x"] ["y"]
      (by decide) (by decide)).2 (by decide)

/-- C10, counterexample.  A full compile chain whose run job completed with
exit code 0 and whose diff job exited 0 (so its return code is not 1), yet
`settle` assigns TIMEOUT rather than SUCCESS, because the compile job timed
out (while still recording exit code 0 after termination, which let the run
job proceed). -/
theorem compiler_settle_timeout_masks_success :
    chainTimeoutDiffZero.player_job.return_code = some 0 ∧
    chainTimeoutDiffZero.player_job.timed_out = false ∧
    chainTimeoutDiffZero.player_job.infra_error = none ∧
    chainTimeoutDiffZero.diff_job.return_code = some 0 ∧
    CompilerResult.settle fsAll chainTimeoutDiffZero = (Status.RUNTIME_TIMEOUT, none) ∧
    Status.RUNTIME_TIMEOUT ≠ Status.SUCCESS := by
  refine ⟨rfl, rfl, rfl, rfl, rfl, by decide⟩

/-- C10, amended.  Given a run job that completed with exit code 0 (not
timed out, no infra error), any diff return code other than 1 — including a
skipped diff job with no return code, or one that exited 2 or higher —
yields SUCCESS: for a run-only Result unconditionally, and for a full
compile chain provided none of the earlier compile-job rungs fires. -/
theorem settle_diff_not_one_is_success :
    (∀ (fs : FS) (r : PlayerResult),
        r.player_job.timed_out = false → r.player_job.infra_error = none →
        r.player_job.return_code = some 0 → r.diff_job.return_code ≠ some 1 →
        PlayerResult.settle fs r = (Status.SUCCESS, none)) ∧
    (∀ (fs : FS) (r : CompilerResult),
        r.compile_job.timed_out = false → r.compile_job.infra_error = none →
        truthy r.compile_job.return_code = false → fs.isfile r.compile_out_path = true →
        r.player_job.timed_out = false → r.player_job.infra_error = none →
        r.player_job.return_code = some 0 → r.diff_job.return_code ≠ some 1 →
        CompilerResult.settle fs r = (Status.SUCCESS, none)) := by
  constructor
  · intro fs r h1 h2 h3 h4
    simp [PlayerResult.settle, h1, h2, h3, h4]
  · intro fs r h1 h2 h3 h4 h5 h6 h7 h8
    simp [CompilerResult.settle, h1, h2, h3, h4, h5, h6, h7, h8]

/-- Witness for the amended C10 theorem: a run-only Result with run exit 0
and a skipped diff job (no return code) settles to SUCCESS. -/
theorem settle_diff_not_one_is_success_witness :
    PlayerResult.settle fsAll
        { player_job := { return_code := some 0 }, player_stderr_path := "p_stderr.txt",
          diff_job := JobState.initial }
      = (Status.SUCCESS, none) :=
  settle_diff_not_one_is_success.1 fsAll
    { player_job := { return_code := some 0 }, player_stderr_path := "p_stderr.txt",
      diff_job := JobState.initial } rfl rfl rfl (by decide)

/-! Scheduler invariant lemmas for C3. -/

theorem sum_ite_update {n : Nat} (f : Fin n → Pc) (i : Fin n) (v : Pc) (p : Pc → Bool) :
    (∑ j : Fin n, if p (Function.update f i v j) then 1 else 0)
        + (if p (f i) then 1 else 0)
      = (∑ j : Fin n, if p (f j) then 1 else 0) + (if p v then 1 else 0) := by
  have key : ∀ g : Fin n → Pc, (∑ j : Fin n, if p (g j) then 1 else 0)
      = (if p (g i) then 1 else 0)
        + ∑ j ∈ Finset.univ.erase i, (if p (g j) then 1 else 0) := by
    intro g
    exact (Finset.add_sum_erase Finset.univ _ (Finset.mem_univ i)).symm
  have herase : (∑ j ∈ Finset.univ.erase i, (if p (Function.update f i v j) then 1 else 0))
      = ∑ j ∈ Finset.univ.erase i, (if p (f j) then 1 else 0) := by
    apply Finset.sum_congr rfl
    intro j hj
    rw [Function.update_noteq (Finset.ne_of_mem_erase hj)]
  rw [key (Function.update f i v), key f, herase, Function.update_same]
  omega

theorem slotCount_update {n : Nat} (s : SchedState n) (i : Fin n) (v : Pc) (m : Nat) :
    slotCount { pcs := Function.update s.pcs i v, sem := m }
        + (if (s.pcs i).holdsSlot then 1 else 0)
      = slotCount s + (if v.holdsSlot then 1 else 0) := by
  unfold slotCount
  exact sum_ite_update s.pcs i v Pc.holdsSlot

theorem terminal_update_mono {n : Nat} (pcs : Fin n → Pc) (i : Fin n) (v : Pc)
    (hnt : (pcs i).terminal = false) :
    ∀ j : Fin n, (pcs j).terminal = true → (Function.update pcs i v j).terminal = true := by
  intro j hj
  by_cases hji : j = i
  · subst hji
    rw [hj] at hnt
    cases hnt
  · rw [Function.update_noteq hji]
    exact hj

theorem ord_update {n : Nat} {deps : Fin n → List (Fin n)} {s : SchedState n}
    (hord : ∀ i, s.pcs i ≠ Pc.waitingDeps → ∀ j ∈ deps i, (s.pcs j).terminal = true)
    (i : Fin n) (v : Pc) (hnt : (s.pcs i).terminal = false)
    (hdeps : ∀ j ∈ deps i, (s.pcs j).terminal = true) :
    ∀ i', Function.update s.pcs i v i' ≠ Pc.waitingDeps →
      ∀ j ∈ deps i', (Function.update s.pcs i v j).terminal = true := by
  intro i' hi' j hj
  by_cases hii : i' = i
  · subst hii
    exact terminal_update_mono s.pcs i' v hnt j (hdeps j hj)
  · rw [Function.update_noteq hii] at hi'
    exact terminal_update_mono s.pcs i v hnt j (hord i' hi' j hj)

theorem inv_init {n : Nat} (deps : Fin n → List (Fin n)) : Inv deps (initState n) := by
  constructor
  · simp [initState, slotCount, Pc.holdsSlot, semCapacity]
  · intro i hi
    simp [initState] at hi

theorem inv_step {n : Nat} {deps : Fin n → List (Fin n)} {s s' : SchedState n}
    (hs : Inv deps s) (h : Step deps s s') : Inv deps s' := by
  obtain ⟨hsum, hord⟩ := hs
  cases h with
  | depsReady i hpc hdeps =>
      constructor
      · have hkey := slotCount_update s i Pc.checkingDeps s.sem
        rw [hpc] at hkey
        simp [Pc.holdsSlot] at hkey
        dsimp only
        omega
      · exact ord_update hord i Pc.checkingDeps (by rw [hpc]; rfl) hdeps
  | skip i hpc =>
      constructor
      · have hkey := slotCount_update s i Pc.skipped s.sem
        rw [hpc] at hkey
        simp [Pc.holdsSlot] at hkey
        dsimp only
        omega
      · exact ord_update hord i Pc.skipped (by rw [hpc]; rfl)
          (hord i (by rw [hpc]; decide))
  | proceed i hpc =>
      constructor
      · have hkey := slotCount_update s i Pc.acquiring s.sem
        rw [hpc] at hkey
        simp [Pc.holdsSlot] at hkey
        dsimp only
        omega
      · exact ord_update hord i Pc.acquiring (by rw [hpc]; rfl)
          (hord i (by rw [hpc]; decide))
  | acquire i hpc hpos =>
      constructor
      · have hkey := slotCount_update s i Pc.holding (s.sem - 1)
        rw [hpc] at hkey
        simp [Pc.holdsSlot] at hkey
        dsimp only
        omega
      · exact ord_update hord i Pc.holding (by rw [hpc]; rfl)
          (hord i (by rw [hpc]; decide))
  | infraStop i hpc =>
      constructor
      · have hkey := slotCount_update s i Pc.afterWork s.sem
        rw [hpc] at hkey
        simp [Pc.holdsSlot] at hkey
        dsimp only
        omega
      · exact ord_update hord i Pc.afterWork (by rw [hpc]; rfl)
          (hord i (by rw [hpc]; decide))
  | spawn i hpc =>
      constructor
      · have hkey := slotCount_update s i Pc.running s.sem
        rw [hpc] at hkey
        simp [Pc.holdsSlot] at hkey
        dsimp only
        omega
      · exact ord_update hord i Pc.running (by rw [hpc]; rfl)
          (hord i (by rw [hpc]; decide))
  | reap i hpc =>
      constructor
      · have hkey := slotCount_update s i Pc.afterWork s.sem
        rw [hpc] at hkey
        simp [Pc.holdsSlot] at hkey
        dsimp only
        omega
      · exact ord_update hord i Pc.afterWork (by rw [hpc]; rfl)
          (hord i (by rw [hpc]; decide))
  | release i hpc =>
      constructor
      · have hkey := slotCount_update s i Pc.released (s.sem + 1)
        rw [hpc] at hkey
        simp [Pc.holdsSlot] at hkey
        dsimp only
        omega
      · exact ord_update hord i Pc.released (by rw [hpc]; rfl)
          (hord i (by rw [hpc]; decide))
  | abandon i hpc =>
      constructor
      · have hkey := slotCount_update s i Pc.escaped (s.sem + 1)
        rw [hpc] at hkey
        simp [Pc.holdsSlot] at hkey
        dsimp only
        omega
      · exact ord_update hord i Pc.escaped (by rw [hpc]; rfl)
          (hord i (by rw [hpc]; decide))

theorem inv_reachable {n : Nat} {deps : Fin n → List (Fin n)} {s : SchedState n}
    (h : Reachable deps s) : Inv deps s := by
  induction h with
  | refl => exact inv_init deps
  | tail _ hstep ih => exact inv_step ih hstep

theorem runningCount_le_slotCount {n : Nat} (s : SchedState n) :
    runningCount s ≤ slotCount s := by
  unfold runningCount slotCount
  apply Finset.sum_le_sum
  intro i _
  by_cases hp : s.pcs i = Pc.running
  · simp [hp, Pc.holdsSlot]
  · simp [hp]

theorem reach_run_from_waiting {n : Nat} (deps : Fin n → List (Fin n)) (s : SchedState n)
    (i : Fin n) (hpc : s.pcs i = Pc.waitingDeps) (hdeps : deps i = [])
    (hsem : 0 < s.sem) :
    Relation.ReflTransGen (Step deps) s
      { pcs := Function.update s.pcs i Pc.running, sem := s.sem - 1 } := by
  have h1 : Step deps s
      { pcs := Function.update s.pcs i Pc.checkingDeps, sem := s.sem } :=
    Step.depsReady s i hpc (by simp [hdeps])
  have h2 : Step deps
      { pcs := Function.update s.pcs i Pc.checkingDeps, sem := s.sem }
      { pcs := Function.update (Function.update s.pcs i Pc.checkingDeps) i Pc.acquiring,
        sem := s.sem } :=
    Step.proceed _ i (by simp)
  have h3 : Step deps
      { pcs := Function.update (Function.update s.pcs i Pc.checkingDeps) i Pc.acquiring,
        sem := s.sem }
      { pcs := Function.update (Function.update (Function.update s.pcs i Pc.checkingDeps) i
          Pc.acquiring) i Pc.holding,
        sem := s.sem - 1 } :=
    Step.acquire _ i (by simp) hsem
  have h4 : Step deps
      { pcs := Function.update (Function.update (Function.update s.pcs i Pc.checkingDeps) i
          Pc.acquiring) i Pc.holding,
        sem := s.sem - 1 }
      { pcs := Function.update (Function.update (Function.update (Function.update s.pcs i
          Pc.checkingDeps) i Pc.acquiring) i Pc.holding) i Pc.running,
        sem := s.sem - 1 } :=
    Step.spawn _ i (by simp)
  have heq : (Function.update (Function.update (Function.update (Function.update s.pcs i
      Pc.checkingDeps) i Pc.acquiring) i Pc.holding) i Pc.running)
      = Function.update s.pcs i Pc.running := by
    simp only [Function.update_idem]
  refine Relation.ReflTransGen.head h1 (Relation.ReflTransGen.head h2
    (Relation.ReflTransGen.head h3 (Relation.ReflTransGen.single ?_)))
  rw [← heq]
  exact h4

theorem reach_cexState_zero :
    Relation.ReflTransGen (Step deps31) (initState 31) (cexState 0) := by
  have h1 := reach_run_from_waiting deps31 (initState 31) 0 rfl rfl (by decide)
  have h2 : Step deps31
      { pcs := Function.update (initState 31).pcs 0 Pc.running, sem := (initState 31).sem - 1 }
      { pcs := Function.update (Function.update (initState 31).pcs 0 Pc.running) 0 Pc.escaped,
        sem := (initState 31).sem - 1 + 1 } :=
    Step.abandon _ 0 (by simp)
  have heq : ({ pcs := Function.update (Function.update (initState 31).pcs 0 Pc.running) 0 Pc.escaped,
                sem := (initState 31).sem - 1 + 1 } : SchedState 31) = cexState 0 := by
    have hp : Function.update (Function.update (initState 31).pcs 0 Pc.running) 0 Pc.escaped
        = (cexState 0).pcs := by
      simp only [Function.update_idem]
      decide
    have hsem : (initState 31).sem - 1 + 1 = (cexState 0).sem := by decide
    rw [hp, hsem]
  exact (h1.tail (heq ▸ h2))

theorem reach_cexState (k : Nat) (hk : k ≤ 30) :
    Relation.ReflTransGen (Step deps31) (initState 31) (cexState k) := by
  induction k with
  | zero => exact reach_cexState_zero
  | succ m ih =>
      have hm : m ≤ 30 := by omega
      have hlt : m + 1 < 31 := by omega
      have hpc : (cexState m).pcs ⟨m + 1, hlt⟩ = Pc.waitingDeps := by
        unfold cexState
        dsimp only
        rw [if_neg (by omega), if_neg (by omega)]
      have hsem : 0 < (cexState m).sem := by
        unfold cexState
        dsimp only
        omega
      have hstep := reach_run_from_waiting deps31 (cexState m) ⟨m + 1, hlt⟩ hpc rfl hsem
      have heq : ({ pcs := Function.update (cexState m).pcs ⟨m + 1, hlt⟩ Pc.running,
                    sem := (cexState m).sem - 1 } : SchedState 31) = cexState (m + 1) := by
        have hp : Function.update (cexState m).pcs ⟨m + 1, hlt⟩ Pc.running
            = (cexState (m + 1)).pcs := by
          funext j
          by_cases hj : j = ⟨m + 1, hlt⟩
          · subst hj
            rw [Function.update_same]
            unfold cexState
            dsimp only
            rw [if_neg (by omega), if_pos (by omega)]
          · rw [Function.update_noteq hj]
            unfold cexState
            dsimp only
            have hjv : j.val ≠ m + 1 := by
              intro hv
              exact hj (Fin.ext hv)
            by_cases h0 : j.val = 0
            · rw [if_pos h0, if_pos h0]
            · rw [if_neg h0, if_neg h0]
              by_cases hle : j.val ≤ m
              · rw [if_pos hle, if_pos (by omega)]
              · rw [if_neg hle, if_neg (by omega)]
        have hsem' : (cexState m).sem - 1 = (cexState (m + 1)).sem := by
          unfold cexState
          dsimp only
          omega
        rw [hp, hsem']
      exact (ih hm).trans (heq ▸ hstep)

/-- C3, counterexample.  A reachable state of a 31-job batch with 31
spawned-and-not-yet-reaped subprocesses, exceeding the gate capacity of 30:
job 0 spawned, outlived both its timeout and the post-termination wait, and
was abandoned unreaped while the `finally` block released its slot; jobs
1..30 then each acquired a slot and spawned.  The gate bounds only the
spawn-to-release window, not the abandoned processes. -/
theorem scheduler_unreaped_bound_violated :
    Reachable deps31 (cexState 30) ∧ 30 < unreapedCount (cexState 30) := by
  constructor
  · exact reach_cexState 30 (by omega)
  · decide

/-- C3, amended.  In every state the scheduler can reach: at most 30 jobs
(the gate capacity fixed in `run_jobs`) simultaneously hold a slot, hence at
most 30 subprocesses are inside the spawn-to-reap window; the total number
of spawned-and-not-yet-reaped subprocesses equals those plus the processes
abandoned unreaped by the uncaught second-wait `TimeoutError` path (which
the gate does not bound — see the counterexample); and every job at the
spawn point or with an unreaped subprocess has all the jobs it depends on in
a terminal state, so no job spawns before its dependencies are terminal. -/
theorem scheduler_slot_bound_and_ordering {n : Nat} (deps : Fin n → List (Fin n))
    (s : SchedState n) (h : Reachable deps s) :
    slotCount s ≤ 30 ∧
    runningCount s ≤ 30 ∧
    unreapedCount s = runningCount s + escapedCount s ∧
    ∀ i : Fin n,
      (s.pcs i = Pc.holding ∨ s.pcs i = Pc.running ∨ s.pcs i = Pc.escaped) →
      ∀ j ∈ deps i, (s.pcs j).terminal = true := by
  obtain ⟨hsum, hord⟩ := inv_reachable h
  have hcap : semCapacity = 30 := rfl
  have hslot : slotCount s ≤ 30 := by omega
  refine ⟨hslot, ?_, ?_, ?_⟩
  · have hle := runningCount_le_slotCount s
    omega
  · unfold unreapedCount runningCount escapedCount
    rw [← Finset.sum_add_distrib]
    apply Finset.sum_congr rfl
    intro i _
    rcases hpc : s.pcs i <;> simp [hpc]
  · intro i hi j hj
    refine hord i ?_ j hj
    rcases hi with h1 | h1 | h1 <;> rw [h1] <;> decide

/-- Witness for the amended C3 theorem at the initial state of a one-job
batch with no dependencies. -/
theorem scheduler_slot_bound_and_ordering_witness :
    slotCount (initState 1) ≤ 30 ∧
    runningCount (initState 1) ≤ 30 ∧
    unreapedCount (initState 1) = runningCount (initState 1) + escapedCount (initState 1) ∧
    ∀ i : Fin 1,
      ((initState 1).pcs i = Pc.holding ∨ (initState 1).pcs i = Pc.running ∨
        (initState 1).pcs i = Pc.escaped) →
      ∀ j ∈ (fun _ : Fin 1 => ([] : List (Fin 1))) i, ((initState 1).pcs j).terminal = true :=
  scheduler_slot_bound_and_ordering (fun _ => []) (initState 1) Relation.ReflTransGen.refl

end InkProof
